import Mathlib

/-!
Verification development for the pipecat-cloud CLI deployment core:
the configuration resolver (`cli/commands/deploy.py` lines 286-308 together
with `_utils/deploy_utils.py`), the API error classifier
(`api.py`: `_API.create_api_method`, `_API._base_request`, `bubble_error`,
`print_error`), and the deployment orchestrator (`cli/commands/deploy.py`
`_deploy`: existence check, preflight, submission, polling loop).

Python runtime values that flow through these functions (JSON bodies,
TOML data, the classifier error slot) are modelled by the `Json` type
below, with Python truthiness and the dict operations the source uses.
A raised Python exception is modelled by `Except.error`.
-/

/-- A Python / JSON value as handled by the CLI code: `null` is Python
`None`; `obj` is a dict given as an association list with distinct keys. -/
inductive Json where
  | null : Json
  | bool : Bool → Json
  | num : Int → Json
  | str : String → Json
  | arr : List Json → Json
  | obj : List (String × Json) → Json

/-- Python truthiness of a value: `None`, `False`, `0`, `""`, `[]` and
`\x7b\x7d` are falsy, everything else is truthy. -/
def Json.truthy : Json → Bool
  | .null => false
  | .bool b => b
  | .num n => n != 0
  | .str s => s != ""
  | .arr xs => !xs.isEmpty
  | .obj kvs => !kvs.isEmpty

/-- Is the value a dict, as tested by `isinstance(v, dict)`. -/
def Json.isObj : Json → Bool
  | .obj _ => true
  | _ => false

/-- Python `d.get(k, dflt)`: defined on dicts, `AttributeError` (modelled
as `Except.error`) on every other value, in particular on `None`. -/
def pyGetD (j : Json) (k : String) (dflt : Json) : Except Unit Json :=
  match j with
  | .obj kvs => .ok ((kvs.lookup k).getD dflt)
  | _ => .error ()

/-- Python `d.get(k)` with its implicit `None` default. -/
def pyGet (j : Json) (k : String) : Except Unit Json :=
  pyGetD j k Json.null

/-- Equality of a Python value with the string `k` (a non-string value
never equals a string in Python). -/
def jsonEqStr (x : Json) (k : String) : Bool :=
  match x with
  | .str s => s == k
  | _ => false

/-- Python `k in v` for a string key: key membership for dicts, substring
test for strings, element membership for lists, `TypeError` otherwise. -/
def pyContains (j : Json) (k : String) : Except Unit Bool :=
  match j with
  | .obj kvs => .ok (kvs.lookup k).isSome
  | .str s => .ok (decide (k.toList <:+: s.toList))
  | .arr xs => .ok (xs.any (jsonEqStr · k))
  | _ => .error ()

/-- Python `v[k]` for a string key `k`: dict lookup (`KeyError` when the
key is absent), `TypeError` on every non-dict value. -/
def pyIndexStr (j : Json) (k : String) : Except Unit Json :=
  match j with
  | .obj kvs =>
    match kvs.lookup k with
    | some v => .ok v
    | none => .error ()
  | _ => .error ()

/-- Python `len(v)`: defined for strings, lists and dicts; `TypeError`
on every other value. -/
def pyLen : Json → Except Unit Nat
  | .str s => .ok s.length
  | .arr xs => .ok xs.length
  | .obj kvs => .ok kvs.length
  | _ => .error ()

/-- Python `v[0]`: first element of a list (`IndexError` when empty),
first character of a string, `TypeError` / `KeyError` otherwise. -/
def pyIndex0 : Json → Except Unit Json
  | .arr (x :: _) => .ok x
  | .str s =>
    match s.toList with
    | c :: _ => .ok (.str (String.mk [c]))
    | [] => .error ()
  | _ => .error ()

example : Json.truthy (.obj []) = false := rfl
example : Json.truthy (.obj [("a", .null)]) = true := rfl
example : pyGetD (.obj [("errors", .arr [.num 1])]) "errors" (.arr [])
    = .ok (.arr [.num 1]) := rfl
example : pyGetD .null "errors" (.arr []) = .error () := rfl
example : pyContains (.str "nobody") "body" = .ok true := by
  simp [pyContains]
  decide

/-! ## API error classifier (`api.py`, class `_API`)

The client instance state that the classifier reads and writes is
`self.error` (an `int` HTTP status or `None`, modelled as `Json`) and
`self.bubble_next`. One call through `create_api_method` is modelled by
`create_api_method` below; the wrapped coroutine and `_base_request` are
abstracted to their three observable outcomes. -/

/-- Mutable state of the `_API` client instance: `self.error` (the int
HTTP status set by `_base_request`, or `None`) and `self.bubble_next`. -/
structure ApiState where
  error : Json
  bubble_next : Bool

/-- Observable outcome of the wrapped coroutine (`_base_request` inside it):
`success` returns a value; `httpError s` means `_base_request` ran
`self.error = response.status` and then `response.raise_for_status()`;
`raisedWithoutStatus` means an exception was raised before `self.error`
was set — in particular every transport failure (DNS failure, connection
refused, timeout) raised by `session.request`. -/
inductive CallOutcome where
  | success : Json → CallOutcome
  | httpError : Int → CallOutcome
  | raisedWithoutStatus : CallOutcome

/-- Number of times `print_error` writes to the console for a given value
of `self.error`: it returns without output when `self.error` is falsy,
and otherwise presents exactly one message (`console.unauthorized()` for
401, `console.api_error(...)` otherwise). -/
def print_error_writes (error : Json) : Nat :=
  if error.truthy then 1 else 0

/-- One call through the wrapper produced by `_API.create_api_method`
(api.py lines 69-88). Returns the `(result, error)` pair handed to the
caller, the client state after the call, and how many console
presentations the call performed. -/
def create_api_method (st : ApiState) (call : CallOutcome) :
    (Json × Json) × ApiState × Nat :=
  let st1 : ApiState := { st with error := .null }
  match call with
  | .success r => ((r, st1.error), { st1 with bubble_next := false }, 0)
  | .httpError s =>
      let st2 : ApiState := { st1 with error := .num s }
      let writes := if st2.error.truthy && !st2.bubble_next
        then print_error_writes st2.error else 0
      ((.null, st2.error), { st2 with bubble_next := false }, writes)
  | .raisedWithoutStatus =>
      let writes := if st1.error.truthy && !st1.bubble_next
        then print_error_writes st1.error else 0
      ((.null, st1.error), { st1 with bubble_next := false }, writes)

/-- `_API.bubble_error` (api.py lines 102-104): sets the one-shot flag. -/
def bubble_error (st : ApiState) : ApiState :=
  { st with bubble_next := true }

/-! ## Configuration resolver

`ScalingParams` and its validation follow `_utils/deploy_utils.py`
(`__attrs_post_init__`). The `DeployConfigParams` record shape is the one
the deploy command and `_API._deploy` consume. The merge is
`cli/commands/deploy.py` lines 286-308. -/

/-- Scaling layer of a deploy configuration (`ScalingParams` in
`_utils/deploy_utils.py`). -/
structure ScalingParams where
  min_instances : Option Int
  max_instances : Option Int

/-- Validating construction of `ScalingParams`
(`ScalingParams.__attrs_post_init__`): raises `ValueError` (modelled as
`Except.error`) when `min_instances < 0`, when `max_instances < 1`, or
when both are set and `max_instances < min_instances`. -/
def ScalingParams.make (mi ma : Option Int) : Except String ScalingParams :=
  match mi, ma with
  | some m, some M =>
      if m < 0 then .error "min_instances must be greater than or equal to 0"
      else if M < 1 then .error "max_instances must be greater than 0"
      else if M < m then
        .error "max_instances must be greater than or equal to min_instances"
      else .ok ⟨mi, ma⟩
  | some m, none =>
      if m < 0 then .error "min_instances must be greater than or equal to 0"
      else .ok ⟨mi, ma⟩
  | none, some M =>
      if M < 1 then .error "max_instances must be greater than 0"
      else .ok ⟨mi, ma⟩
  | none, none => .ok ⟨mi, ma⟩

/-- Modelled from the spec: the current `DeployConfigParams` record
(spec section 3, DeployConfig) with the fields read and written by
`cli/commands/deploy.py` and `_API._deploy`. The copy of
`_utils/deploy_utils.py` under src/ is an earlier revision whose record
(`agent_name`/`image_url`/`secrets`, no defaults) lacks the `image` and
`image_credentials` fields those callers use; that earlier record is
embedded separately below as `OldDeployConfigParams`. Every field
defaults to absent, matching the CLI command defaults. -/
structure DeployConfigParams where
  agent_name : Option String := none
  image : Option String := none
  image_credentials : Option String := none
  secret_set : Option String := none
  scaling : ScalingParams := ⟨none, none⟩

/-- The CLI-supplied argument layer: `typer` hands the deploy command
`None` for every argument and option the invoker did not pass
(`cli/commands/deploy.py` lines 226-276), so `some v` means the invoker
explicitly passed `v`. -/
structure CliArgs where
  agent_name : Option String := none
  image : Option String := none
  credentials : Option String := none
  secret_set : Option String := none
  min_instances : Option Int := none
  max_instances : Option Int := none

/-- Python `x or y` on optional strings: `x` when truthy (set and
non-empty), otherwise `y`. -/
def pyOrStr (x y : Option String) : Option String :=
  match x with
  | some s => if s = "" then y else some s
  | none => y

/-- The field-by-field merge of the deploy command
(`cli/commands/deploy.py` lines 286-308): start from `DeployConfigParams()`
or the loaded file config, overwrite the four string fields with
`cli or file` and the two scaling fields with
`cli if cli is not None else file`, and rebuild `ScalingParams` (which
revalidates and may raise). -/
def mergeDeployConfig (args : CliArgs) (fileCfg : Option DeployConfigParams) :
    Except String DeployConfigParams :=
  let p := match fileCfg with
    | some fc => fc
    | none => {}
  match ScalingParams.make
      (match args.min_instances with
       | some n => some n
       | none => p.scaling.min_instances)
      (match args.max_instances with
       | some n => some n
       | none => p.scaling.max_instances) with
  | .error e => .error e
  | .ok sc =>
      .ok { agent_name := pyOrStr args.agent_name p.agent_name,
            image := pyOrStr args.image p.image,
            image_credentials := pyOrStr args.credentials p.image_credentials,
            secret_set := pyOrStr args.secret_set p.secret_set,
            scaling := sc }

/-! ## Declarative file loading (`_utils/deploy_utils.py` as shipped) -/

/-- The record built by the shipped `load_deploy_config_file`
(`DeployConfigParams` of `_utils/deploy_utils.py` lines 35-50). Field
values come from toml untyped, so they are kept as `Json`. -/
structure OldDeployConfigParams where
  agent_name : Json
  image_url : Json
  secret_set : Json
  scaling : Option ScalingParams
  secrets : Json

/-- A toml value usable on the left of `< 0` in the scaling validation:
ints, and bools (which are ints in Python); anything else raises
TypeError. -/
def pyToInt : Json → Except Unit Int
  | .num n => .ok n
  | .bool b => .ok (if b then 1 else 0)
  | _ => .error ()

/-- `ScalingParams(**scaling_data)`: TypeError unless the keyword set is
exactly the two required fields, then `__attrs_post_init__` validation.
Non-int values make the validating comparisons raise TypeError; this
model surfaces that before the range checks, which only reorders which
exception reaches the enclosing `except Exception` handler. -/
def scalingFromKwargs (d : Json) : Except String ScalingParams :=
  match d with
  | .obj kvs =>
      if kvs.any (fun kv => kv.1 != "min_instances" && kv.1 != "max_instances")
      then .error "TypeError: unexpected keyword argument"
      else
        match kvs.lookup "min_instances", kvs.lookup "max_instances" with
        | some miV, some maV =>
            match pyToInt miV, pyToInt maV with
            | .ok mi, .ok ma => ScalingParams.make (some mi) (some ma)
            | _, _ => .error "TypeError: unorderable types"
        | _, _ => .error "TypeError: missing required argument"
  | _ => .error "TypeError: argument after ** must be a mapping"

/-- State of the declarative config file at `deploy_config_path`:
absent (`open` raises FileNotFoundError), unreadable as toml
(`toml.load` raises TomlDecodeError), or parsed into a key-value dict. -/
inductive FileState where
  | missing : FileState
  | unparsable : FileState
  | parsed : List (String × Json) → FileState

/-- `load_deploy_config_file` (`_utils/deploy_utils.py` lines 53-86) as
shipped: the whole body sits in one `try` whose
`except Exception as e: raise ConfigFileError(str(e))` converts every
exception — including the FileNotFoundError of a missing file — into a
`ConfigFileError`, modelled as `Except.error`. -/
def load_deploy_config_file :
    FileState → Except String (Option OldDeployConfigParams)
  | .missing => .error "FileNotFoundError"
  | .unparsable => .error "TomlDecodeError"
  | .parsed config_data =>
      let scaling_data := (config_data.lookup "scaling").getD .null
      let rest := config_data.filter (fun kv => kv.1 != "scaling")
      match (if scaling_data.truthy
             then (scalingFromKwargs scaling_data).map some
             else .ok none) with
      | .error e => .error e
      | .ok scaling_params =>
        match rest.lookup "agent_name" with
        | none => .error "KeyError: agent_name"
        | some an =>
          let unexpected := rest.filter (fun kv =>
            kv.1 != "agent_name" && kv.1 != "image_url" &&
            kv.1 != "secret_set" && kv.1 != "scaling" && kv.1 != "secrets")
          if !unexpected.isEmpty then
            .error "Unexpected keys in config file"
          else
            .ok (some { agent_name := an,
                        image_url := (rest.lookup "image_url").getD .null,
                        secret_set := (rest.lookup "secret_set").getD .null,
                        scaling := scaling_params,
                        secrets := (rest.lookup "secrets").getD .null })

/-- What the deploy command does with the file layer. -/
inductive FileLayerOutcome where
  | exitWithError : FileLayerOutcome
  | layer : Option OldDeployConfigParams → FileLayerOutcome

/-- File-layer resolution in the deploy command (`cli/commands/deploy.py`
lines 288-294): a `ConfigFileError` from the loader is caught, presented
with `console.error`, and the command exits; otherwise a truthy loaded
config becomes the base layer. -/
def deployFileLayer (fs : FileState) : FileLayerOutcome :=
  match load_deploy_config_file fs with
  | .error _ => .exitWithError
  | .ok cfg => .layer cfg

/-! ## Agent lookup and create-or-update dispatch -/

/-- `_API._agent` (api.py lines 309-316) applied to the outcome of its
`_base_request` call with `not_found_is_empty=True`: `none` models the
404 already coerced to Python `None`; otherwise the parsed JSON body.
Returns the value the coroutine returns, or the exception it raises. -/
def agent_body (resp : Option Json) : Except Unit Json :=
  match resp with
  | none => .ok .null
  | some r =>
    if r.truthy then
      match pyContains r "body" with
      | .error e => .error e
      | .ok true => pyIndexStr r "body"
      | .ok false => .ok .null
    else .ok .null

/-- The `(data, error)` pair `API.agent` delivers: `_agent` runs inside
`create_api_method`, and an exception in the body extraction happens with
`self.error` still unset. -/
def agentDelivered (st : ApiState) (resp : Option Json) :
    (Json × Json) × ApiState × Nat :=
  create_api_method st (match agent_body resp with
    | .ok v => .success v
    | .error _ => .raisedWithoutStatus)

/-- Checking phase of `_deploy` (cli/commands/deploy.py lines 35-50):
on a truthy lookup error the command exits (`none`); otherwise
`existing_agent` is exactly the truthiness of the returned data. -/
def checkPhase (data error : Json) : Option Bool :=
  if error.truthy then none else some data.truthy

/-- HTTP method chosen by `_API._deploy` (api.py lines 292-295). -/
def deployHttpMethod (update : Bool) : String :=
  if update then "PUT" else "POST"

/-- Existence check chained with the submission dispatch
(`API.deploy(deploy_config=params, update=existing_agent, ...)`):
`none` when the checking phase exits on a lookup error, otherwise the
HTTP method of the submission. -/
def deployDispatch (data error : Json) : Option String :=
  (checkPhase data error).map deployHttpMethod

/-- Outcome of the image pull secret preflight. -/
inductive PreflightOutcome where
  | proceed : Bool → PreflightOutcome
  | exitError : PreflightOutcome
  | crash : PreflightOutcome

/-- Image pull secret preflight (cli/commands/deploy.py lines 87-108):
on a truthy error the code evaluates `error.get("code") == "400"` —
`.get` on a non-dict error value raises AttributeError (`crash`); the
string "400" means proceed with `creds_exist = True`; any other code
prints the error and exits. With no error it proceeds, warning (without
exiting) when the lookup result is falsy. -/
def credsPreflight (creds_exist error : Json) : PreflightOutcome :=
  if error.truthy then
    match pyGet error "code" with
    | .error _ => .crash
    | .ok c => if jsonEqStr c "400" then .proceed true else .exitError
  else .proceed creds_exist.truthy

/-! ## Wire payload construction (`_API._deploy`, api.py lines 263-295) -/

/-- An optional string field as it appears in the request dict. -/
def optStr : Option String → Json
  | some s => .str s
  | none => .null

/-- An optional int field as it appears in the request dict. -/
def optInt : Option Int → Json
  | some n => .num n
  | none => .null

/-- The base payload dict of `_API._deploy` (api.py lines 271-280). -/
def deployPayload (c : DeployConfigParams) : Json :=
  .obj [("serviceName", optStr c.agent_name),
        ("image", optStr c.image),
        ("imagePullSecretSet", optStr c.image_credentials),
        ("secretSet", optStr c.secret_set),
        ("autoScaling", .obj [("minReplicas", optInt c.scaling.min_instances),
                              ("maxReplicas", optInt c.scaling.max_instances)])]

mutual
/-- `remove_none_values` inside `_API._deploy` (api.py lines 283-288):
drop every dict entry whose value is `None`, recursing into dict values
and keeping every non-dict value verbatim. -/
def remove_none_values : Json → Json
  | .obj kvs => .obj (remove_none_entries kvs)
  | j => j

/-- The dict comprehension of `remove_none_values` over the entries. -/
def remove_none_entries : List (String × Json) → List (String × Json)
  | [] => []
  | (k, v) :: rest =>
      match v with
      | .null => remove_none_entries rest
      | _ => (k, if v.isObj then remove_none_values v else v)
              :: remove_none_entries rest
end

mutual
/-- No dict entry at any nesting level (through dicts and lists) carries
the value `null`. -/
def noNullEntries : Json → Bool
  | .obj kvs => noNullEntriesList kvs
  | .arr xs => noNullEntriesArr xs
  | _ => true

/-- `noNullEntries` over the entries of a dict. -/
def noNullEntriesList : List (String × Json) → Bool
  | [] => true
  | (_, v) :: rest =>
      (match v with | .null => false | _ => true)
        && noNullEntries v && noNullEntriesList rest

/-- `noNullEntries` over the elements of a list. -/
def noNullEntriesArr : List Json → Bool
  | [] => true
  | x :: rest => noNullEntries x && noNullEntriesArr rest
end

/-! ## Status polling loop (`_deploy`, cli/commands/deploy.py lines 134-217)

The loop body is translated statement by statement. Each tick `i` of the
environment supplies the `(agent_status, error)` pair the `API.agent`
call of iteration `i` delivers. Outcomes record how many status lookups
and how many sleeps were performed. -/

/-- `MAX_ALIVE_CHECKS` (cli/commands/deploy.py line 29). -/
def MAX_ALIVE_CHECKS : Nat := 18

/-- `ALIVE_CHECK_SLEEP` in seconds (cli/commands/deploy.py line 30). -/
def ALIVE_CHECK_SLEEP : Nat := 5

/-- Terminal outcome of the polling phase. `failedApi` is the
`console.api_error` branch for a first error carrying `code` and
`message`; `failedUnknown` is the `console.error` branch for any other
first error; `lookupErrorExit` is the `if error:` exit; `crash` is an
uncaught Python exception escaping the loop (only KeyboardInterrupt is
caught). -/
inductive PollOutcome where
  | ready : Nat → Nat → PollOutcome
  | failedApi : Json → Nat → Nat → PollOutcome
  | failedUnknown : Json → Nat → Nat → PollOutcome
  | lookupErrorExit : Nat → Nat → PollOutcome
  | timedOut : Nat → Nat → PollOutcome
  | crash : Nat → Nat → PollOutcome

/-- `status_errors and len(status_errors) > 0` — short-circuits on a
falsy value, so `len` (which raises TypeError on non-sized values) only
runs on truthy ones. -/
def errorsGate (status_errors : Json) : Except Unit Bool :=
  if status_errors.truthy then
    match pyLen status_errors with
    | .ok n => .ok (decide (0 < n))
    | .error e => .error e
  else .ok false

/-- The while loop of the polling phase. `dep` is the
`active_deployment_id` cell (tracked only as set / unset), `i` is
`checks_performed`, and the last argument is the remaining iteration
budget `MAX_ALIVE_CHECKS - checks_performed`. -/
def pollAux (ticks : Nat → Json × Json) (dep : Bool) (i : Nat) :
    Nat → PollOutcome
  | 0 => .timedOut i i
  | r + 1 =>
      let st := (ticks i).1
      let err := (ticks i).2
      match pyGetD st "errors" (Json.arr []) with
      | .error _ => .crash (i + 1) i
      | .ok status_errors =>
        match errorsGate status_errors with
        | .error _ => .crash (i + 1) i
        | .ok true =>
          match pyIndex0 status_errors with
          | .error _ => .crash (i + 1) i
          | .ok error_message =>
            match pyContains error_message "code" with
            | .error _ => .crash (i + 1) i
            | .ok true =>
              match pyContains error_message "message" with
              | .error _ => .crash (i + 1) i
              | .ok true => .failedApi error_message (i + 1) i
              | .ok false => .failedUnknown status_errors (i + 1) i
            | .ok false => .failedUnknown status_errors (i + 1) i
        | .ok false =>
          if err.truthy then .lookupErrorExit (i + 1) i
          else
            let dep2 := dep || (match pyGetD st "activeDeploymentId" .null with
                                | .ok v => v.truthy
                                | .error _ => false)
            match pyGetD st "activeDeploymentReady" (Json.bool false) with
            | .error _ => .crash (i + 1) i
            | .ok rd =>
              if rd.truthy then .ready (i + 1) i
              else pollAux ticks dep2 (i + 1) r

/-- The polling phase entered with `checks_performed = 0` and
`active_deployment_id = None`. -/
def pollDeploy (ticks : Nat → Json × Json) : PollOutcome :=
  pollAux ticks false 0 MAX_ALIVE_CHECKS

/-- A quiet tick: the fetched status is a dict whose `errors` entry is
falsy, the lookup reported no error, and the status is not ready. On
such a tick the loop sleeps and continues. -/
def quietTick (st err : Json) : Bool :=
  (match pyGetD st "errors" (Json.arr []) with
   | .error _ => false
   | .ok se =>
     match errorsGate se with
     | .error _ => false
     | .ok g => !g) &&
  !err.truthy &&
  (match pyGetD st "activeDeploymentReady" (Json.bool false) with
   | .error _ => false
   | .ok rd => !rd.truthy)

/-! ## Helper lemmas about the polling loop -/

/-- Which value the deployment-id cell holds after a tick. -/
def depAfter (dep : Bool) (st : Json) : Bool :=
  dep || (match pyGetD st "activeDeploymentId" .null with
          | .ok v => v.truthy
          | .error _ => false)

theorem pollAux_quiet (ticks : Nat → Json × Json) (dep : Bool) (i r : Nat)
    (hq : quietTick (ticks i).1 (ticks i).2 = true) :
    pollAux ticks dep i (r + 1) = pollAux ticks (depAfter dep (ticks i).1) (i + 1) r := by
  cases hge : pyGetD (ticks i).1 "errors" (Json.arr []) with
  | error e => simp [quietTick, hge] at hq
  | ok se =>
    cases hgate : errorsGate se with
    | error e => simp [quietTick, hge, hgate] at hq
    | ok g =>
      cases hrd : pyGetD (ticks i).1 "activeDeploymentReady" (Json.bool false) with
      | error e => simp [quietTick, hge, hgate, hrd] at hq
      | ok rd =>
        simp only [quietTick, hge, hgate, hrd, Bool.and_eq_true,
          Bool.not_eq_true'] at hq
        obtain ⟨⟨hg, herrt⟩, hrdt⟩ := hq
        subst hg
        simp only [pollAux, depAfter]
        simp [hge, hgate, herrt, hrd, hrdt]

theorem pollAux_quiet_run (ticks : Nat → Json × Json) (r : Nat) :
    ∀ i, ∀ dep : Bool,
    (∀ j, j < r → quietTick (ticks (i + j)).1 (ticks (i + j)).2 = true) →
    pollAux ticks dep i r = .timedOut (i + r) (i + r) := by
  induction r with
  | zero => intro i dep _; simp [pollAux]
  | succ r ih =>
    intro i dep hq
    have h0 : quietTick (ticks i).1 (ticks i).2 = true := by
      have := hq 0 (Nat.succ_pos r)
      simpa using this
    rw [pollAux_quiet ticks dep i r h0]
    have hrest : ∀ j, j < r →
        quietTick (ticks (i + 1 + j)).1 (ticks (i + 1 + j)).2 = true := by
      intro j hj
      have := hq (j + 1) (Nat.succ_lt_succ hj)
      have harith : i + (j + 1) = i + 1 + j := by omega
      rwa [harith] at this
    rw [ih (i + 1) (depAfter dep (ticks i).1) hrest]
    have harith2 : i + 1 + r = i + (r + 1) := by omega
    rw [harith2]

theorem pollAux_fail_step (ticks : Nat → Json × Json) (dep : Bool) (i r : Nat)
    (kvs : List (String × Json)) (e0 : Json) (rest : List Json)
    (hst : (ticks i).1 = .obj kvs)
    (herr : kvs.lookup "errors" = some (.arr (e0 :: rest)))
    (hcode : pyContains e0 "code" = .ok true)
    (hmsg : pyContains e0 "message" = .ok true) :
    pollAux ticks dep i (r + 1) = .failedApi e0 (i + 1) i := by
  simp only [pollAux, hst, pyGetD, herr, Option.getD_some]
  simp [errorsGate, Json.truthy, pyLen, pyIndex0, hcode, hmsg]

theorem pollAux_fail_run (ticks : Nat → Json × Json)
    (kvs : List (String × Json)) (e0 : Json) (rest : List Json) (k : Nat) :
    ∀ i r, ∀ dep : Bool, k < r →
    (∀ j, j < k → quietTick (ticks (i + j)).1 (ticks (i + j)).2 = true) →
    (ticks (i + k)).1 = .obj kvs →
    kvs.lookup "errors" = some (.arr (e0 :: rest)) →
    pyContains e0 "code" = .ok true →
    pyContains e0 "message" = .ok true →
    pollAux ticks dep i r = .failedApi e0 (i + k + 1) (i + k) := by
  induction k with
  | zero =>
    intro i r dep hkr _ hst herr hcode hmsg
    obtain ⟨r', rfl⟩ : ∃ r', r = r' + 1 := ⟨r - 1, by omega⟩
    have hst' : (ticks i).1 = .obj kvs := by simpa using hst
    rw [pollAux_fail_step ticks dep i r' kvs e0 rest hst' herr hcode hmsg]
    simp
  | succ k ih =>
    intro i r dep hkr hq hst herr hcode hmsg
    obtain ⟨r', rfl⟩ : ∃ r', r = r' + 1 := ⟨r - 1, by omega⟩
    have h0 : quietTick (ticks i).1 (ticks i).2 = true := by
      simpa using hq 0 (Nat.succ_pos k)
    rw [pollAux_quiet ticks dep i r' h0]
    have hq' : ∀ j, j < k →
        quietTick (ticks (i + 1 + j)).1 (ticks (i + 1 + j)).2 = true := by
      intro j hj
      have := hq (j + 1) (Nat.succ_lt_succ hj)
      have harith : i + (j + 1) = i + 1 + j := by omega
      rwa [harith] at this
    have hst' : (ticks (i + 1 + k)).1 = .obj kvs := by
      have harith : i + 1 + k = i + (k + 1) := by omega
      rw [harith]; exact hst
    have := ih (i + 1) r' (depAfter dep (ticks i).1) (by omega) hq' hst' herr hcode hmsg
    rw [this]
    have harith2 : i + 1 + k = i + (k + 1) := by omega
    rw [harith2]

/-! ## Claim C3 and C4: polling loop bounds and fail-fast -/

/-- C3: if every polled status is a dict that is not ready and carries no
errors, and no lookup error occurs, the polling loop performs exactly
`MAX_ALIVE_CHECKS` (= 18) status lookups and then terminates with the
timed-out outcome, which is a different outcome from either failure
branch. -/
theorem C3_poll_timeout (ticks : Nat → Json × Json)
    (hq : ∀ i, i < MAX_ALIVE_CHECKS →
      quietTick (ticks i).1 (ticks i).2 = true) :
    pollDeploy ticks = .timedOut MAX_ALIVE_CHECKS MAX_ALIVE_CHECKS ∧
    MAX_ALIVE_CHECKS = 18 ∧
    (∀ e l s, PollOutcome.timedOut MAX_ALIVE_CHECKS MAX_ALIVE_CHECKS ≠
      PollOutcome.failedApi e l s) ∧
    (∀ es l s, PollOutcome.timedOut MAX_ALIVE_CHECKS MAX_ALIVE_CHECKS ≠
      PollOutcome.failedUnknown es l s) := by
  refine ⟨?_, rfl, fun e l s h => PollOutcome.noConfusion h,
    fun es l s h => PollOutcome.noConfusion h⟩
  have := pollAux_quiet_run ticks MAX_ALIVE_CHECKS 0 false
    (fun j hj => by simpa using hq j hj)
  simpa [pollDeploy] using this

/-- Witness for C3 at a constant never-ready, never-erroring status. -/
theorem C3_poll_timeout_witness :
    pollDeploy (fun _ =>
      (Json.obj [("activeDeploymentReady", Json.bool false)], Json.null))
      = .timedOut MAX_ALIVE_CHECKS MAX_ALIVE_CHECKS :=
  (C3_poll_timeout _ (by decide)).1

/-- C4: when the first `k` polled statuses are quiet and the status
fetched at tick `k < MAX_ALIVE_CHECKS` carries a non-empty `errors` list
whose first element has `code` and `message` keys, the loop reports the
failure immediately, surfacing that first error: exactly `k + 1` lookups
and `k` sleeps happen, with no further lookup or sleep after the error
is seen. -/
theorem C4_poll_fail_fast (ticks : Nat → Json × Json) (k : Nat)
    (kvs : List (String × Json)) (e0 : Json) (rest : List Json)
    (hk : k < MAX_ALIVE_CHECKS)
    (hq : ∀ j, j < k → quietTick (ticks j).1 (ticks j).2 = true)
    (hst : (ticks k).1 = .obj kvs)
    (herr : kvs.lookup "errors" = some (.arr (e0 :: rest)))
    (hcode : pyContains e0 "code" = .ok true)
    (hmsg : pyContains e0 "message" = .ok true) :
    pollDeploy ticks = .failedApi e0 (k + 1) k := by
  have := pollAux_fail_run ticks kvs e0 rest k 0 MAX_ALIVE_CHECKS false hk
    (fun j hj => by simpa using hq j hj) (by simpa using hst)
    herr hcode hmsg
  simpa [pollDeploy] using this

/-- Witness for C4: two quiet ticks, then a status carrying a structured
error; the loop fails at the third lookup after two sleeps. -/
theorem C4_poll_fail_fast_witness :
    pollDeploy (fun i =>
      if i < 2 then
        (Json.obj [("activeDeploymentReady", Json.bool false)], Json.null)
      else
        (Json.obj [("errors", Json.arr [Json.obj
          [("code", Json.str "PCC-1000"), ("message", Json.str "boom")]])],
         Json.null))
      = .failedApi (Json.obj
          [("code", Json.str "PCC-1000"), ("message", Json.str "boom")]) 3 2 :=
  C4_poll_fail_fast _ 2
    [("errors", Json.arr [Json.obj
      [("code", Json.str "PCC-1000"), ("message", Json.str "boom")]])]
    (Json.obj [("code", Json.str "PCC-1000"), ("message", Json.str "boom")])
    [] (by decide) (by decide) rfl rfl rfl rfl

/-! ## Claim C5 and C6: classifier error delivery and bubble mode -/

/-- C5: for a call that fails with HTTP 400, bubble mode returns the
error to the caller with no presentation; with bubble off the error is
presented exactly once and still returned; and the bubble flag is a
one-shot — it is false after any call, whatever the outcome. -/
theorem C5_bubble_semantics (st : ApiState) :
    ((create_api_method (bubble_error st) (.httpError 400)).1
        = (Json.null, Json.num 400) ∧
     (create_api_method (bubble_error st) (.httpError 400)).2.2 = 0) ∧
    ((create_api_method { st with bubble_next := false } (.httpError 400)).1
        = (Json.null, Json.num 400) ∧
     (create_api_method { st with bubble_next := false }
        (.httpError 400)).2.2 = 1) ∧
    (∀ call, (create_api_method st call).2.1.bubble_next = false) := by
  refine ⟨⟨rfl, rfl⟩, ⟨rfl, rfl⟩, fun call => ?_⟩
  cases call <;> rfl

/-- C6 counterexample: on a transport-level failure the classifier
returns a null error alongside the null result and performs no
presentation — the error is dropped rather than classified as a
Network-kind error or raised. -/
theorem C6_counterexample :
    (create_api_method ⟨Json.null, false⟩ .raisedWithoutStatus).1
      = (Json.null, Json.null) ∧
    (create_api_method ⟨Json.null, false⟩ .raisedWithoutStatus).2.2 = 0 :=
  ⟨rfl, rfl⟩

/-- C6 amended: a transport-level failure (an exception raised before
`self.error` is set) is swallowed: the call returns a null result with a
null error and presents nothing, so it is indistinguishable from
absence; only HTTP failures, which set `self.error`, return a non-null
error. -/
theorem C6_transport_swallowed (st : ApiState) :
    (create_api_method st .raisedWithoutStatus).1 = (Json.null, Json.null) ∧
    (create_api_method st .raisedWithoutStatus).2.2 = 0 ∧
    (∀ s : Int, (create_api_method st (.httpError s)).1.2 = Json.num s) :=
  ⟨rfl, rfl, fun _ => rfl⟩

/-! ## Claim C2 and C10: lookup result, presence, and dispatch -/

/-- C2 counterexample: a lookup response whose `body` is the empty dict
delivers a present (non-null) status, yet the orchestrator submits with
POST (create), not PUT (update). -/
theorem C2_counterexample :
    (agentDelivered ⟨Json.null, false⟩
        (some (Json.obj [("body", Json.obj [])]))).1
      = (Json.obj [], Json.null) ∧
    Json.obj [] ≠ Json.null ∧
    deployDispatch (Json.obj []) Json.null = some "POST" ∧
    some "POST" ≠ some "PUT" := by
  refine ⟨rfl, fun h => Json.noConfusion h, rfl, by simp⟩

/-- C2 amended: the create-or-update choice depends on the truthiness of
the lookup result, not bare presence: a null or otherwise falsy status
(such as an empty dict) leads to create (POST), a truthy status to
update (PUT), and a truthy lookup error exits before any submission. -/
theorem C2_dispatch_on_truthiness (data : Json) :
    (data = Json.null → deployDispatch data Json.null = some "POST") ∧
    (data.truthy = false → deployDispatch data Json.null = some "POST") ∧
    (data.truthy = true → deployDispatch data Json.null = some "PUT") ∧
    (∀ err : Json, err.truthy = true → deployDispatch data err = none) := by
  refine ⟨fun h => ?_, fun h => ?_, fun h => ?_, fun err h => ?_⟩
  · subst h; rfl
  · simp [deployDispatch, checkPhase, deployHttpMethod, h,
      show Json.truthy Json.null = false from rfl]
  · simp [deployDispatch, checkPhase, deployHttpMethod, h,
      show Json.truthy Json.null = false from rfl]
  · simp [deployDispatch, checkPhase, h]

/-- Witness for the amended C2: a non-empty status dict dispatches PUT,
an absent status dispatches POST. -/
theorem C2_dispatch_witness :
    deployDispatch (Json.obj [("ready", Json.bool true)]) Json.null
      = some "PUT" ∧
    deployDispatch Json.null Json.null = some "POST" :=
  ⟨(C2_dispatch_on_truthiness (Json.obj [("ready", Json.bool true)])).2.2.1 rfl,
   (C2_dispatch_on_truthiness Json.null).1 rfl⟩

/-- C10: the agent lookup delivers the value under the `body` key of the
response; a coerced 404 and any successful response without a `body` key
(including non-dict bodies, whose handling raises and is swallowed with
`self.error` unset) are delivered as absence — null result with null
error — and such an absence makes the subsequent submission a create
(POST). -/
theorem C10_body_extraction (st : ApiState) :
    ((agentDelivered st none).1 = (Json.null, Json.null)) ∧
    (∀ kvs v, kvs.lookup "body" = some v →
      (agentDelivered st (some (Json.obj kvs))).1 = (v, Json.null)) ∧
    (∀ kvs, kvs.lookup "body" = none →
      (agentDelivered st (some (Json.obj kvs))).1
        = (Json.null, Json.null)) ∧
    (∀ r : Json, r.isObj = false →
      (agentDelivered st (some r)).1 = (Json.null, Json.null)) ∧
    (∀ kvs, kvs.lookup "body" = none →
      deployDispatch (agentDelivered st (some (Json.obj kvs))).1.1
        (agentDelivered st (some (Json.obj kvs))).1.2 = some "POST") := by
  have hnb : ∀ kvs : List (String × Json), kvs.lookup "body" = none →
      (agentDelivered st (some (Json.obj kvs))).1
        = (Json.null, Json.null) := by
    intro kvs h
    by_cases hk : kvs.isEmpty
    · simp [agentDelivered, agent_body, Json.truthy, hk, create_api_method]
    · simp [agentDelivered, agent_body, Json.truthy, hk, pyContains, h,
        create_api_method]
  refine ⟨rfl, fun kvs v h => ?_, hnb, fun r hr => ?_, fun kvs h => ?_⟩
  · have hne : kvs ≠ [] := by rintro rfl; simp at h
    simp [agentDelivered, agent_body, Json.truthy, List.isEmpty_iff, hne,
      pyContains, h, pyIndexStr, create_api_method]
  · cases r with
    | null => rfl
    | bool b => cases b <;> rfl
    | num n =>
      cases htr : Json.truthy (Json.num n) <;>
        simp [agentDelivered, agent_body, htr, pyContains, create_api_method]
    | str s =>
      cases htr : Json.truthy (Json.str s) with
      | false => simp [agentDelivered, agent_body, htr, create_api_method]
      | true =>
        simp only [agentDelivered, agent_body, htr, pyContains]
        cases hc : decide (String.toList "body" <:+: String.toList s) <;>
          simp [pyIndexStr, create_api_method]
    | arr xs =>
      cases htr : Json.truthy (Json.arr xs) with
      | false => simp [agentDelivered, agent_body, htr, create_api_method]
      | true =>
        simp only [agentDelivered, agent_body, htr, pyContains]
        cases hc : xs.any (jsonEqStr · "body") <;>
          simp [pyIndexStr, create_api_method]
    | obj kvs => simp [Json.isObj] at hr
  · rw [hnb kvs h]
    rfl

/-- Witness for C10: a response with a numeric body is delivered as that
number, and a response without a `body` key dispatches a create. -/
theorem C10_body_extraction_witness :
    (agentDelivered ⟨Json.null, false⟩
        (some (Json.obj [("body", Json.num 7)]))).1
      = (Json.num 7, Json.null) ∧
    deployDispatch
      (agentDelivered ⟨Json.null, false⟩
        (some (Json.obj [("status", Json.str "ok")]))).1.1
      (agentDelivered ⟨Json.null, false⟩
        (some (Json.obj [("status", Json.str "ok")]))).1.2 = some "POST" :=
  ⟨(C10_body_extraction _).2.1 [("body", Json.num 7)] (Json.num 7) rfl,
   (C10_body_extraction _).2.2.2.2 [("status", Json.str "ok")] rfl⟩

/-! ## Claim C1: the field-by-field configuration merge -/

theorem ScalingParams.make_ok (mi ma : Option Int) (sc : ScalingParams)
    (h : ScalingParams.make mi ma = .ok sc) : sc = ⟨mi, ma⟩ := by
  cases mi <;> cases ma <;>
    simp only [ScalingParams.make] at h <;>
    (try split_ifs at h) <;> simp_all

/-- C1 counterexample: the CLI explicitly passes the empty string for
`agent_name` while the file supplies "file-agent"; the merged config
holds the file value, not the explicitly passed CLI value — the merge
uses Python truthiness (`or`), not presence, for string fields. -/
theorem C1_counterexample :
    mergeDeployConfig
      { agent_name := some "", image := some "img" }
      (some { agent_name := some "file-agent" })
      = .ok { agent_name := some "file-agent", image := some "img" } ∧
    (some "file-agent" : Option String) ≠ some "" := by
  exact ⟨rfl, by simp⟩

/-- C1 amended: the merge is field-by-field (a file-supplied image and a
CLI-supplied max_instances both appear in the merged result), but CLI
precedence is by Python truthiness for the string fields: the CLI value
wins only when it is a non-empty string, an explicitly passed empty
string falls through to the file layer; the two scaling integers take
the CLI value exactly when it was passed (is-not-None test); otherwise
the file-layer value applies, and an absent file layer behaves as the
all-absent default configuration. -/
theorem C1_merge_field_by_field :
    (∀ args, mergeDeployConfig args none = mergeDeployConfig args (some {})) ∧
    (∀ args fc c, mergeDeployConfig args (some fc) = .ok c →
      (∀ s, args.agent_name = some s → s ≠ "" → c.agent_name = some s) ∧
      (args.agent_name = none → c.agent_name = fc.agent_name) ∧
      (∀ s, args.image = some s → s ≠ "" → c.image = some s) ∧
      (args.image = none → c.image = fc.image) ∧
      (∀ s, args.credentials = some s → s ≠ "" →
        c.image_credentials = some s) ∧
      (args.credentials = none →
        c.image_credentials = fc.image_credentials) ∧
      (∀ s, args.secret_set = some s → s ≠ "" → c.secret_set = some s) ∧
      (args.secret_set = none → c.secret_set = fc.secret_set) ∧
      (∀ n, args.min_instances = some n →
        c.scaling.min_instances = some n) ∧
      (args.min_instances = none →
        c.scaling.min_instances = fc.scaling.min_instances) ∧
      (∀ n, args.max_instances = some n →
        c.scaling.max_instances = some n) ∧
      (args.max_instances = none →
        c.scaling.max_instances = fc.scaling.max_instances)) := by
  refine ⟨fun args => rfl, fun args fc c h => ?_⟩
  simp only [mergeDeployConfig] at h
  cases hmk : ScalingParams.make
      (match args.min_instances with
       | some n => some n
       | none => fc.scaling.min_instances)
      (match args.max_instances with
       | some n => some n
       | none => fc.scaling.max_instances) with
  | error e => rw [hmk] at h; cases h
  | ok sc =>
    rw [hmk] at h
    have hsc := ScalingParams.make_ok _ _ _ hmk
    injection h with h
    subst h
    refine ⟨fun s hs hne => ?_, fun hn => ?_, fun s hs hne => ?_,
      fun hn => ?_, fun s hs hne => ?_, fun hn => ?_, fun s hs hne => ?_,
      fun hn => ?_, fun n hn => ?_, fun hn => ?_, fun n hn => ?_,
      fun hn => ?_⟩ <;>
      simp_all [pyOrStr]

/-- Witness for the amended C1: the file supplies the image, the CLI
supplies max_instances, and both appear in the same merged result. -/
theorem C1_merge_witness :
    ({ image := some "file-img", scaling := ⟨none, some 7⟩ }
        : DeployConfigParams).image = some "file-img" ∧
    ({ image := some "file-img", scaling := ⟨none, some 7⟩ }
        : DeployConfigParams).scaling.max_instances = some 7 := by
  have h : mergeDeployConfig { max_instances := some 7 }
      (some { image := some "file-img" })
      = .ok { image := some "file-img", scaling := ⟨none, some 7⟩ } := rfl
  have H := C1_merge_field_by_field.2 { max_instances := some 7 }
    { image := some "file-img" } _ h
  exact ⟨H.2.2.2.1 rfl, H.2.2.2.2.2.2.2.2.2.2.1 7 rfl⟩

/-! ## Claim C7, C8, C9: file layer, preflight, payload stripping -/

/-- C7: evaluating the shipped loader at a missing config file. `open`
raises FileNotFoundError, the blanket `except Exception` wraps it into a
ConfigFileError, and the deploy command catches that, prints it and
exits — the file layer is a hard error instead of being treated as
absent. An existing but unparsable file is likewise a hard error, and a
minimal parsed file loads. -/
theorem C7_missing_file_is_hard_error :
    load_deploy_config_file .missing = .error "FileNotFoundError" ∧
    deployFileLayer .missing = .exitWithError ∧
    load_deploy_config_file .unparsable = .error "TomlDecodeError" ∧
    deployFileLayer .unparsable = .exitWithError ∧
    load_deploy_config_file (.parsed [("agent_name", .str "my-agent")])
      = .ok (some { agent_name := .str "my-agent", image_url := .null,
                    secret_set := .null, scaling := none,
                    secrets := .null }) :=
  ⟨rfl, rfl, rfl, rfl, rfl⟩

/-- C8: evaluating the credential preflight at its failing input. The
lookup fails with HTTP 400; the classifier (in bubble mode) hands back
the integer status as the error; `error.get("code")` on that integer
raises AttributeError, so the command crashes instead of treating the
error as "credential set exists". The tolerated path is reachable only
for a dict-shaped error carrying code "400", which api.py never
produces. -/
theorem C8_creds_preflight_crash :
    (create_api_method (bubble_error ⟨Json.null, false⟩) (.httpError 400)).1
      = (Json.null, Json.num 400) ∧
    credsPreflight Json.null (Json.num 400) = .crash ∧
    credsPreflight Json.null (Json.obj [("code", Json.str "400")])
      = .proceed true :=
  ⟨rfl, rfl, rfl⟩

/-- C9: for every deploy configuration, the wire payload after
`remove_none_values` contains no key at any nesting level whose value is
null — every unset field has been stripped. -/
theorem C9_payload_strips_unset (c : DeployConfigParams) :
    noNullEntries (remove_none_values (deployPayload c)) = true := by
  obtain ⟨a, i, ic, ss, mi, ma⟩ := c
  cases a <;> cases i <;> cases ic <;> cases ss <;> cases mi <;> cases ma <;>
    simp [deployPayload, optStr, optInt, remove_none_values,
      remove_none_entries, noNullEntries, noNullEntriesList, Json.isObj]
